import Mathlib

/-!
Verification of the snuba condition compiler
(`snuba/query/parser/conditions.py`) and the simple query pipeline
(`snuba/pipeline/simple_pipeline.py`) against their specification.

The Python code is shallowly embedded: untyped Python values become the
`PyVal` inductive, in-place mutation becomes explicit state passing, and
raised exceptions become `Except` results.  Collaborators that live outside
the excerpt (the dataset/schema, the operator tables, the small utility
predicates) are either parameters of the embedding or are modelled from the
specification, as indicated by each doc comment.
-/

set_option maxHeartbeats 1000000

namespace Snuba

/-- Untyped Python values as they appear in raw condition structures:
`None`, strings, integers, tuples and lists. -/
inductive PyVal where
  | none : PyVal
  | str : String → PyVal
  | int : Int → PyVal
  | tuple : List PyVal → PyVal
  | list : List PyVal → PyVal
deriving Repr

mutual
/-- Structural equality of Python values (`__eq__`). -/
def PyVal.beq : PyVal → PyVal → Bool
  | .none, .none => true
  | .str a, .str b => a == b
  | .int a, .int b => a == b
  | .tuple a, .tuple b => PyVal.beqList a b
  | .list a, .list b => PyVal.beqList a b
  | _, _ => false

/-- Elementwise structural equality of Python sequences. -/
def PyVal.beqList : List PyVal → List PyVal → Bool
  | [], [] => true
  | x :: xs, y :: ys => PyVal.beq x y && PyVal.beqList xs ys
  | _, _ => false
end

mutual
theorem PyVal.beq_iff : ∀ a b : PyVal, PyVal.beq a b = true ↔ a = b
  | .none, .none => by simp [PyVal.beq]
  | .str a, .str b => by simp [PyVal.beq]
  | .int a, .int b => by simp [PyVal.beq]
  | .tuple a, .tuple b => by simp [PyVal.beq, PyVal.beqList_iff a b]
  | .list a, .list b => by simp [PyVal.beq, PyVal.beqList_iff a b]
  | .none, .str _ | .none, .int _ | .none, .tuple _ | .none, .list _
  | .str _, .none | .str _, .int _ | .str _, .tuple _ | .str _, .list _
  | .int _, .none | .int _, .str _ | .int _, .tuple _ | .int _, .list _
  | .tuple _, .none | .tuple _, .str _ | .tuple _, .int _ | .tuple _, .list _
  | .list _, .none | .list _, .str _ | .list _, .int _ | .list _, .tuple _ =>
      by simp [PyVal.beq]

theorem PyVal.beqList_iff : ∀ a b : List PyVal, PyVal.beqList a b = true ↔ a = b
  | [], [] => by simp [PyVal.beqList]
  | [], _ :: _ => by simp [PyVal.beqList]
  | _ :: _, [] => by simp [PyVal.beqList]
  | x :: xs, y :: ys => by
      simp [PyVal.beqList, PyVal.beq_iff x y, PyVal.beqList_iff xs ys]
end

instance : DecidableEq PyVal := fun a b => decidable_of_iff _ (PyVal.beq_iff a b)

/-- Python truthiness as used by `if not conditions`: `None`, empty strings,
zero and empty sequences are falsy. -/
def pyFalsy : PyVal → Bool
  | .none => true
  | .str s => s == ""
  | .int n => n == 0
  | .tuple xs => xs.isEmpty
  | .list xs => xs.isEmpty

/-- Python iteration as used by `for cond in conditions`: tuples and lists
yield their elements, strings yield their characters as one-character
strings; any other value is not iterable (`TypeError`). -/
def pyIter : PyVal → Option (List PyVal)
  | .tuple xs => some xs
  | .list xs => some xs
  | .str s => some (s.data.map (fun c => PyVal.str (String.mk [c])))
  | _ => Option.none

/-- `isinstance(lit, tuple)`. -/
def isPyTuple : PyVal → Bool
  | .tuple _ => true
  | _ => false

/-- `isinstance(lit, (list, tuple))`. -/
def isPyListOrTuple : PyVal → Bool
  | .tuple _ => true
  | .list _ => true
  | _ => false

/-- The `<` comparison used by Python `sorted` on the homogeneous scalar
tuples that appear in IN-lists; Python raises on cross-type comparison,
modelled here as incomparable. -/
def pyLt : PyVal → PyVal → Bool
  | .int a, .int b => decide (a < b)
  | .str a, .str b => decide (a < b)
  | _, _ => false

/-- One step of a stable insertion sort: an element is placed before the
first strictly greater element, so equal elements keep their order. -/
def pyInsert (x : PyVal) : List PyVal → List PyVal
  | [] => [x]
  | y :: ys => if pyLt x y then x :: y :: ys else y :: pyInsert x ys

/-- Python `sorted`: stable ascending sort. -/
def pySorted : List PyVal → List PyVal
  | [] => []
  | x :: xs => pyInsert x (pySorted xs)

/-- `tuple(sorted(lit))` applied to a tuple value, the identity elsewhere. -/
def pySortTuple : PyVal → PyVal
  | .tuple xs => .tuple (pySorted xs)
  | v => v

/-- Modelled from the spec: the fixed surface-operator set of the
operator-to-function mapping (`snuba.query.schema.CONDITION_OPERATORS`,
not under src/). -/
def CONDITION_OPERATORS : List String :=
  [">", "<", ">=", "<=", "=", "!=", "IN", "NOT IN", "IS NULL", "IS NOT NULL",
   "LIKE", "NOT LIKE"]

/-- A left-hand side shaped like a column name or nested expression
(string, tuple or list). -/
def lhsShaped : PyVal → Bool
  | .str _ => true
  | .tuple _ => true
  | .list _ => true
  | _ => false

/-- Modelled from the spec: `snuba.util.is_condition` (not under src/) — a
raw leaf condition is a 3-tuple `(lhs, operator, rhs)` whose middle element
is one of the surface operators and whose left-hand side is a
column-or-expression shaped value. -/
def is_condition (cond : PyVal) : Bool :=
  match cond with
  | .tuple [lhs, .str op, _] => lhsShaped lhs && CONDITION_OPERATORS.contains op
  | .list [lhs, .str op, _] => lhsShaped lhs && CONDITION_OPERATORS.contains op
  | _ => false

/-- Modelled from the spec: a schema column as exposed through
`get_dataset_schemas().get_read_schema().get_columns()` — whether its
declared type is an Array type, and its optional array-join base name. -/
structure ColumnSpec where
  isArrayType : Bool
  base_name : Option String
deriving Repr, DecidableEq

/-- The dataset collaborator as consumed by `parse_conditions`:
`process_condition` resolves/aliases a raw leaf condition into
`(lhs, op, rhs)`, and `columns` is the read schema's column mapping. -/
structure Dataset where
  process_condition : PyVal → PyVal × String × PyVal
  columns : List (String × ColumnSpec)

/-- Failures surfaced by the compiler: the source raises
`InvalidConditionException(str(conditions))` on structure violations; Python
itself raises `AssertionError` on builder contract violations, `KeyError`
on an unknown operator and `TypeError` when iterating a non-sequence. -/
inductive CompileError where
  | invalidConditionException : PyVal → CompileError
  | assertionError : CompileError
  | keyError : CompileError
  | typeError : CompileError
deriving Repr, DecidableEq

/-- The five builder callbacks that parameterize `parse_conditions`.
Builders that can raise in Python (via the assertions in
`preprocess_literal`) return `Except`. -/
structure Builders (α : Type) where
  operand_builder : PyVal → Except CompileError α
  and_builder : List α → Option α
  or_builder : List α → Option α
  unpack_array_condition_builder : α → String → PyVal → Except CompileError α
  simple_condition_builder : α → String → PyVal → Except CompileError α

/-- Insertion-ordered set semantics of `OrderedDict` keys: the first
occurrence of a key keeps its position, a later duplicate is not
re-inserted and does not move. -/
def odKeys {α : Type} [BEq α] (l : List α) : List α :=
  l.foldl (fun acc x => if acc.contains x then acc else acc ++ [x]) []

/-- The IN-list canonicalization of `parse_conditions` (lines 82-84):
`if op in ("IN", "NOT IN") and isinstance(lit, tuple): lit = tuple(sorted(lit))`. -/
def sortIN (op : String) (lit : PyVal) : PyVal :=
  if (op == "IN" || op == "NOT IN") && isPyTuple lit then pySortTuple lit else lit

/-- The guard of the array-unpack branch (lines 96-102): the left-hand side
is a string naming a column of the read schema, the column's declared type
is Array, its base name differs from the active array-join column, and the
(already canonicalized) literal is not a list or tuple. -/
def uses_array_unpack (dataset : Dataset) (array_join : Option String)
    (lhs : PyVal) (lit : PyVal) : Bool :=
  match lhs with
  | .str s =>
    match dataset.columns.lookup s with
    | some col =>
        col.isArrayType && (col.base_name != array_join)
          && !(isPyListOrTuple lit)
    | Option.none => false
  | _ => false

/-- The `is_condition` leaf branch of `parse_conditions` (lines 79-105):
resolve the raw triple through the dataset, canonicalize IN-list tuples by
sorting, then choose the array-unpack builder or the simple builder. -/
def parse_conditions_leaf {α : Type} (B : Builders α) (dataset : Dataset)
    (conditions : PyVal) (array_join : Option String) :
    Except CompileError (Option α) :=
  let res := dataset.process_condition conditions
  let lhs := res.1
  let op := res.2.1
  -- facilitate deduping IN conditions by sorting them.
  let lit := sortIN op res.2.2
  if uses_array_unpack dataset array_join lhs lit then do
    let l ← B.operand_builder lhs
    let e ← B.unpack_array_condition_builder l op lit
    .ok (some e)
  else do
    let l ← B.operand_builder lhs
    let e ← B.simple_condition_builder l op lit
    .ok (some e)

/-- `parse_conditions` at any depth ≥ 2: empty input yields `none`, a leaf
is compiled, anything else raises `InvalidConditionException`. -/
def parse_conditions_at2 {α : Type} (B : Builders α) (dataset : Dataset)
    (conditions : PyVal) (array_join : Option String) :
    Except CompileError (Option α) :=
  if pyFalsy conditions then .ok Option.none
  else if is_condition conditions then
    parse_conditions_leaf B dataset conditions array_join
  else .error (.invalidConditionException conditions)

/-- `parse_conditions` at depth 1: empty input yields `none`, a leaf is
compiled, otherwise each element is compiled at depth 2 and the non-`none`
results are OR-combined. -/
def parse_conditions_at1 {α : Type} (B : Builders α) (dataset : Dataset)
    (conditions : PyVal) (array_join : Option String) :
    Except CompileError (Option α) :=
  if pyFalsy conditions then .ok Option.none
  else if is_condition conditions then
    parse_conditions_leaf B dataset conditions array_join
  else
    match pyIter conditions with
    | Option.none => .error .typeError
    | some cs => do
        let sub ← cs.mapM (fun cond => parse_conditions_at2 B dataset cond array_join)
        .ok (B.or_builder (sub.filterMap id))

/-- The embedding of `parse_conditions`
(`snuba/query/parser/conditions.py`, lines 29-124).  The source is a single
recursive function whose recursion always increments `depth` and never
recurses once `depth ≥ 2`; the recursive calls at `depth + 1` are therefore
embedded by the depth-specialised functions `parse_conditions_at1` (for the
depth-0 branch) and `parse_conditions_at2` (for the depth-1 branch), which
the coherence lemmas below prove equal to this function at depths 1 and ≥ 2.
Branch order follows the source: falsy input, then the depth-0 AND/dedup
branch, then the leaf branch, then the depth-1 OR branch, then the
`InvalidConditionException`. -/
def parse_conditions {α : Type} [BEq α] (B : Builders α) (dataset : Dataset)
    (conditions : PyVal) (array_join : Option String) (depth : Nat) :
    Except CompileError (Option α) :=
  if pyFalsy conditions then .ok Option.none
  else if depth == 0 then
    -- dedupe conditions at top level, but keep them in order
    match pyIter conditions with
    | Option.none => .error .typeError
    | some cs => do
        let sub ← cs.mapM (fun cond => parse_conditions_at1 B dataset cond array_join)
        .ok (B.and_builder ((odKeys sub).filterMap id))
  else if is_condition conditions then
    parse_conditions_leaf B dataset conditions array_join
  else if depth == 1 then
    match pyIter conditions with
    | Option.none => .error .typeError
    | some cs => do
        let sub ← cs.mapM (fun cond => parse_conditions_at2 B dataset cond array_join)
        .ok (B.or_builder (sub.filterMap id))
  else .error (.invalidConditionException conditions)

/-- The expression AST (`snuba/query/expressions.py`): columns, literals,
function calls, lambdas and lambda arguments; every node carries an
optional alias. -/
inductive Expression where
  | Column : Option String → String → Option String → Expression
  | Literal : Option String → PyVal → Expression
  | FunctionCall : Option String → String → List Expression → Expression
  | Lambda : Option String → List String → Expression → Expression
  | Argument : Option String → String → Expression
deriving Repr

mutual
/-- Structural equality of expressions (the frozen dataclass `__eq__`). -/
def Expression.beq : Expression → Expression → Bool
  | .Column a1 n1 t1, .Column a2 n2 t2 => a1 == a2 && n1 == n2 && t1 == t2
  | .Literal a1 v1, .Literal a2 v2 => a1 == a2 && v1 == v2
  | .FunctionCall a1 f1 p1, .FunctionCall a2 f2 p2 =>
      a1 == a2 && f1 == f2 && Expression.beqList p1 p2
  | .Lambda a1 p1 b1, .Lambda a2 p2 b2 =>
      a1 == a2 && p1 == p2 && Expression.beq b1 b2
  | .Argument a1 n1, .Argument a2 n2 => a1 == a2 && n1 == n2
  | _, _ => false

/-- Elementwise structural equality of expression lists. -/
def Expression.beqList : List Expression → List Expression → Bool
  | [], [] => true
  | x :: xs, y :: ys => Expression.beq x y && Expression.beqList xs ys
  | _, _ => false
end

mutual
theorem Expression.ebeq_iff : ∀ a b : Expression, Expression.beq a b = true ↔ a = b
  | .Column a1 n1 t1, .Column a2 n2 t2 => by
      simp [Expression.beq, and_assoc]
  | .Literal a1 v1, .Literal a2 v2 => by simp [Expression.beq]
  | .FunctionCall a1 f1 p1, .FunctionCall a2 f2 p2 => by
      simp [Expression.beq, Expression.ebeqList_iff p1 p2, and_assoc]
  | .Lambda a1 p1 b1, .Lambda a2 p2 b2 => by
      simp [Expression.beq, Expression.ebeq_iff b1 b2, and_assoc]
  | .Argument a1 n1, .Argument a2 n2 => by simp [Expression.beq]
  | .Column _ _ _, .Literal _ _ | .Column _ _ _, .FunctionCall _ _ _
  | .Column _ _ _, .Lambda _ _ _ | .Column _ _ _, .Argument _ _
  | .Literal _ _, .Column _ _ _ | .Literal _ _, .FunctionCall _ _ _
  | .Literal _ _, .Lambda _ _ _ | .Literal _ _, .Argument _ _
  | .FunctionCall _ _ _, .Column _ _ _ | .FunctionCall _ _ _, .Literal _ _
  | .FunctionCall _ _ _, .Lambda _ _ _ | .FunctionCall _ _ _, .Argument _ _
  | .Lambda _ _ _, .Column _ _ _ | .Lambda _ _ _, .Literal _ _
  | .Lambda _ _ _, .FunctionCall _ _ _ | .Lambda _ _ _, .Argument _ _
  | .Argument _ _, .Column _ _ _ | .Argument _ _, .Literal _ _
  | .Argument _ _, .FunctionCall _ _ _ | .Argument _ _, .Lambda _ _ _ =>
      by simp [Expression.beq]

theorem Expression.ebeqList_iff :
    ∀ a b : List Expression, Expression.beqList a b = true ↔ a = b
  | [], [] => by simp [Expression.beqList]
  | [], _ :: _ => by simp [Expression.beqList]
  | _ :: _, [] => by simp [Expression.beqList]
  | x :: xs, y :: ys => by
      simp [Expression.beqList, Expression.ebeq_iff x y, Expression.ebeqList_iff xs ys]
end

instance : DecidableEq Expression := fun a b => decidable_of_iff _ (Expression.ebeq_iff a b)

/-- Modelled from the spec: the fixed, total operator-to-engine-function
mapping (`snuba.query.conditions.OPERATOR_TO_FUNCTION`, not under src/).
The spec fixes `=` ↦ `equals` and `!=` ↦ `notEquals`. -/
def OPERATOR_TO_FUNCTION : List (String × String) :=
  [(">", "greater"), ("<", "less"), (">=", "greaterOrEquals"),
   ("<=", "lessOrEquals"), ("=", "equals"), ("!=", "notEquals"),
   ("IN", "in"), ("NOT IN", "notIn"), ("IS NULL", "isNull"),
   ("IS NOT NULL", "isNotNull"), ("LIKE", "like"), ("NOT LIKE", "notLike")]

/-- `OPERATOR_TO_FUNCTION[op]`: a missing key raises `KeyError`. -/
def operatorFunction (op : String) : Except CompileError String :=
  match OPERATOR_TO_FUNCTION.lookup op with
  | some f => .ok f
  | Option.none => .error .keyError

/-- Modelled from the spec: `snuba.query.schema.POSITIVE_OPERATORS` (not
under src/) — the operators looking for a specific value (`=`, `IN`,
`LIKE` and the plain comparisons), as opposed to the exclusionary
`!=`, `NOT IN`, `NOT LIKE`. -/
def POSITIVE_OPERATORS : List String :=
  ["=", ">", "<", ">=", "<=", "IN", "IS NULL", "LIKE"]

/-- Modelled from the spec: `snuba.query.conditions.binary_condition` (not
under src/) — a BinaryCondition is a FunctionCall with exactly two
arguments. -/
def binary_condition (a : Option String) (function_name : String)
    (lhs rhs : Expression) : Expression :=
  .FunctionCall a function_name [lhs, rhs]

/-- Modelled from the spec: the boolean combinator function names
(`snuba.query.conditions.BooleanFunctions`, not under src/). -/
def BooleanFunctions.AND : String := "and"

/-- Modelled from the spec: the boolean OR combinator name. -/
def BooleanFunctions.OR : String := "or"

/-- Modelled from the spec: `snuba.util.QUOTED_LITERAL_RE` (not under
src/) matches a token wrapped in single quotes. -/
def isQuotedLiteral (s : String) : Bool :=
  s.length ≥ 2 && s.front == '\'' && s.back == '\''

/-- `val[1:-1]`: strip the surrounding quote characters. -/
def stripQuotes (s : String) : String :=
  (s.drop 1).dropRight 1

/-- Modelled from the spec: `snuba.util.is_function` (not under src/) — a
function-call-shaped structure: a sequence whose first element is the
function name string and whose second is the sequence of arguments. -/
def is_function : PyVal → Bool
  | .tuple (.str _ :: .tuple _ :: _) => true
  | .tuple (.str _ :: .list _ :: _) => true
  | .list (.str _ :: .tuple _ :: _) => true
  | .list (.str _ :: .list _ :: _) => true
  | _ => false

/-- A scalar operand: a quoted token becomes a `Literal`, any other string
becomes a `Column`, other scalars become `Literal`s. -/
def scalarOperand : PyVal → Expression
  | .str s =>
      if isQuotedLiteral s then .Literal Option.none (.str (stripQuotes s))
      else .Column Option.none s Option.none
  | v => .Literal Option.none v

mutual
/-- Modelled from the spec:
`snuba.query.parser.functions.parse_function_to_expr` (not under src/) —
recursively compiles a function-call-shaped structure into a nested
`FunctionCall`; non-function arguments are resolved like operands. -/
def parse_function_to_expr : PyVal → Expression
  | .tuple (.str name :: .tuple args :: _) =>
      .FunctionCall Option.none name (parse_function_args args)
  | .tuple (.str name :: .list args :: _) =>
      .FunctionCall Option.none name (parse_function_args args)
  | .list (.str name :: .tuple args :: _) =>
      .FunctionCall Option.none name (parse_function_args args)
  | .list (.str name :: .list args :: _) =>
      .FunctionCall Option.none name (parse_function_args args)
  | v => .Literal Option.none v

/-- The arguments of a function-shaped operand, each compiled recursively
when itself function-shaped and as a scalar operand otherwise. -/
def parse_function_args : List PyVal → List Expression
  | [] => []
  | a :: rest =>
      (if is_function a then parse_function_to_expr a else scalarOperand a)
        :: parse_function_args rest
end

/-- The `operand_builder` of `parse_conditions_to_expr`
(`conditions.py`, lines 134-142): function-shaped values are compiled as
nested function calls, quoted tokens become `Literal`s, other strings
become `Column`s; a non-string scalar would fail the regex match
(`TypeError`). -/
def operand_builder (val : PyVal) : Except CompileError Expression :=
  if is_function val then .ok (parse_function_to_expr val)
  else match val with
    | .str s =>
        if isQuotedLiteral s then .ok (.Literal Option.none (.str (stripQuotes s)))
        else .ok (.Column Option.none s Option.none)
    | _ => .error .typeError

/-- `multi_expression_builder` (`conditions.py`, lines 144-156): combines a
non-empty list right-associatively into nested binary conditions; the
source's `assert len(expressions) > 0` is the error case. -/
def multi_expression_builder (expressions : List Expression)
    (function : String) : Except CompileError Expression :=
  match expressions with
  | [] => .error .assertionError
  | [e] => .ok e
  | e :: rest =>
      (multi_expression_builder rest function).map
        (fun r => binary_condition Option.none function e r)

/-- `and_builder` (`conditions.py`, lines 158-161): empty input yields
`none`, otherwise AND-combination.  The combination of a non-empty list
never hits the assertion in `multi_expression_builder`. -/
def and_builder (expressions : List Expression) : Option Expression :=
  if expressions.isEmpty then Option.none
  else (multi_expression_builder expressions BooleanFunctions.AND).toOption

/-- `or_builder` (`conditions.py`, lines 163-166). -/
def or_builder (expressions : List Expression) : Option Expression :=
  if expressions.isEmpty then Option.none
  else (multi_expression_builder expressions BooleanFunctions.OR).toOption

/-- `preprocess_literal` (`conditions.py`, lines 168-178): a list or tuple
literal is packaged as a `tuple(...)` call over per-element `Literal`s and
asserts the operator is IN/NOT IN; a scalar literal becomes a `Literal`
and asserts the operator is not IN/NOT IN. -/
def preprocess_literal (op : String) (literal : PyVal) :
    Except CompileError Expression :=
  match literal with
  | .list ls =>
      if op ∈ ["IN", "NOT IN"] then
        .ok (.FunctionCall Option.none "tuple" (ls.map (fun l => .Literal Option.none l)))
      else .error .assertionError
  | .tuple ls =>
      if op ∈ ["IN", "NOT IN"] then
        .ok (.FunctionCall Option.none "tuple" (ls.map (fun l => .Literal Option.none l)))
      else .error .assertionError
  | _ =>
      if op ∈ ["IN", "NOT IN"] then .error .assertionError
      else .ok (.Literal Option.none literal)

/-- `unpack_array_condition_builder` (`conditions.py`, lines 180-208):
`arrayExists` for positive operators, `arrayAll` otherwise, wrapping
`assumeNotNull(cmpFn(x, literal))` in a one-parameter lambda over the
array column. -/
def unpack_array_condition_builder (lhs : Expression) (op : String)
    (literal : PyVal) : Except CompileError Expression := do
  let function_name := if POSITIVE_OPERATORS.contains op then "arrayExists" else "arrayAll"
  -- This is an expression like:
  -- arrayExists(x -> assumeNotNull(notLike(x, rhs)), lhs)
  let cmpFn ← operatorFunction op
  let lit ← preprocess_literal op literal
  .ok (.FunctionCall Option.none function_name
    [.Lambda Option.none ["x"]
      (.FunctionCall Option.none "assumeNotNull"
        [.FunctionCall Option.none cmpFn [.Argument Option.none "x", lit]]),
     lhs])

/-- `simple_condition_builder` (`conditions.py`, lines 210-213): a binary
condition through the operator-to-function mapping (the mapping is looked
up before the literal is preprocessed, matching Python's left-to-right
argument evaluation). -/
def simple_condition_builder (lhs : Expression) (op : String)
    (literal : PyVal) : Except CompileError Expression := do
  let fn ← operatorFunction op
  let lit ← preprocess_literal op literal
  .ok (binary_condition Option.none fn lhs lit)

/-- The concrete builder set of `parse_conditions_to_expr`. -/
def expressionBuilders : Builders Expression where
  operand_builder := operand_builder
  and_builder := and_builder
  or_builder := or_builder
  unpack_array_condition_builder := unpack_array_condition_builder
  simple_condition_builder := simple_condition_builder

/-- `parse_conditions_to_expr` (`conditions.py`, lines 215-225). -/
def parse_conditions_to_expr (expr : PyVal) (dataset : Dataset)
    (arrayjoin : Option String) : Except CompileError (Option Expression) :=
  parse_conditions expressionBuilders dataset expr arrayjoin 0

/-- A dataset whose `process_condition` splits the raw 3-tuple unchanged
(the base `Dataset.process_condition` behaviour), with a given column
mapping. -/
def plainDataset (cols : List (String × ColumnSpec)) : Dataset where
  process_condition := fun c =>
    match c with
    | .tuple [lhs, .str op, rhs] => (lhs, op, rhs)
    | .list [lhs, .str op, rhs] => (lhs, op, rhs)
    | v => (v, "", v)
  columns := cols

/-- A raw simple condition `(lhs, op, rhs)` with a plain column name on the
left. -/
def rawLeaf (lhs op : String) (rhs : PyVal) : PyVal :=
  .tuple [.str lhs, .str op, rhs]

/-- A dataset with no columns declared. -/
def emptyDataset : Dataset := plainDataset []

/-- A dataset declaring the single Array-typed column `tags` with base
name `tags`. -/
def tagsDataset : Dataset :=
  plainDataset [("tags", { isArrayType := true, base_name := some "tags" })]

/-- A bare column reference expression. -/
def colRef (s : String) : Expression := .Column Option.none s Option.none

/-- An integer literal expression. -/
def litInt (n : Int) : Expression := .Literal Option.none (.int n)

/-- The compiled form of a simple equality leaf on an integer literal. -/
def eqLeaf (c : String) (n : Int) : Expression :=
  binary_condition Option.none "equals" (colRef c) (litInt n)

/-- Reference insertion step on integers, mirroring `pyInsert` through
`PyVal.int`. -/
def insInt (a : Int) : List Int → List Int
  | [] => [a]
  | b :: bs => if a < b then a :: b :: bs else b :: insInt a bs

/-- Reference stable insertion sort on integers, mirroring `pySorted`
through `PyVal.int`. -/
def sortInts : List Int → List Int
  | [] => []
  | x :: xs => insInt x (sortInts xs)

/-- Modelled from the spec: the Request (`snuba.request`, not under src/) —
the raw query plus execution settings; entity processors mutate it in
place, modelled here by state passing. -/
structure Request (Q S : Type) where
  query : Q
  settings : S

/-- Runs an ordered processor list fail-fast over a piece of state: each
processor sees the state produced by the previous one; on failure the
state mutated so far is kept (no rollback) and the error is reported. -/
def runProcessors {σ E : Type} (ps : List (σ → Except E σ)) (s : σ) :
    σ × Option E :=
  match ps with
  | [] => (s, Option.none)
  | p :: rest =>
    match p s with
    | .error e => (s, some e)
    | .ok s2 => runProcessors rest s2

/-- Modelled from the spec: a ClickhouseQueryPlan
(`snuba.datasets.plans.query_plan`, not under src/) — the compiled query,
the plan's ordered query processors and its execution strategy. -/
structure ClickhouseQueryPlan (QP S Rn Res E : Type) where
  query : QP
  plan_processors : List (QP → S → Except E QP)
  execution_strategy : QP → S → Rn → Res

/-- Modelled from the spec: `_execute_entity_processors`
(`snuba.pipeline.processors`, not under src/) runs the request's ordered
entity processors in registration order, fail-fast, mutating the Request
in place. -/
def _execute_entity_processors {Q S E : Type}
    (ps : List (Request Q S → Except E (Request Q S))) (r : Request Q S) :
    Request Q S × Option E :=
  runProcessors ps r

/-- Modelled from the spec: `_execute_query_plan_processors`
(`snuba.pipeline.processors`, not under src/) runs the plan's ordered
processors on the plan's query with the request's settings, fail-fast,
mutating the plan's query in place. -/
def _execute_query_plan_processors {Q QP S Rn Res E : Type}
    (plan : ClickhouseQueryPlan QP S Rn Res E) (request : Request Q S) :
    ClickhouseQueryPlan QP S Rn Res E × Option E :=
  let r := runProcessors
    (plan.plan_processors.map (fun p q => p q request.settings)) plan.query
  ({ plan with query := r.1 }, r.2)

/-- `SimplePipeline` (`simple_pipeline.py`, lines 18-50): the constructor
stores the request, the runner and the plan builder; the `__query_plan`
attribute is unset (`Option.none`) until `execute` assigns it.  The
ordered entity-processor list, obtained in the source from the request's
entity, is modelled as a field. -/
structure SimplePipeline (Q S QP Rn Res E : Type) where
  request : Request Q S
  runner : Rn
  query_plan_builder :
    Request Q S → Except E (ClickhouseQueryPlan QP S Rn Res E)
  entity_processors : List (Request Q S → Except E (Request Q S))
  __query_plan : Option (ClickhouseQueryPlan QP S Rn Res E)

/-- `SimplePipeline.__init__` (lines 27-35): no `__query_plan` attribute is
assigned. -/
def SimplePipeline.init {Q S QP Rn Res E : Type} (request : Request Q S)
    (runner : Rn)
    (query_plan_builder :
      Request Q S → Except E (ClickhouseQueryPlan QP S Rn Res E))
    (entity_processors : List (Request Q S → Except E (Request Q S))) :
    SimplePipeline Q S QP Rn Res E :=
  { request := request, runner := runner,
    query_plan_builder := query_plan_builder,
    entity_processors := entity_processors,
    __query_plan := Option.none }

/-- The `query_plan` property (lines 48-50): reading the attribute before
it was ever assigned raises `AttributeError` in Python, modelled as an
`Except` result. -/
def SimplePipeline.query_plan {Q S QP Rn Res E : Type}
    (self : SimplePipeline Q S QP Rn Res E) :
    Except String (ClickhouseQueryPlan QP S Rn Res E) :=
  match self.__query_plan with
  | Option.none => .error "AttributeError"
  | some p => .ok p

/-- `SimplePipeline.execute` (lines 37-46): entity processors, then
`build_plan` (whose result is assigned to `__query_plan`), then plan
processors, then the plan's execution strategy on the plan's query, the
request's settings and the runner.  In-place mutation of `self`, the
request and the plan object is modelled by returning the updated pipeline;
because the attribute and the local plan alias the same object in Python,
the stored attribute reflects the processors' mutations. -/
def SimplePipeline.execute {Q S QP Rn Res E : Type}
    (self : SimplePipeline Q S QP Rn Res E) :
    SimplePipeline Q S QP Rn Res E × Except E Res :=
  -- Execute entity processors
  match _execute_entity_processors self.entity_processors self.request with
  | (req2, some e) => ({ self with request := req2 }, .error e)
  | (req2, Option.none) =>
    -- Build and execute query plan
    match self.query_plan_builder req2 with
    | .error e => ({ self with request := req2 }, .error e)
    | .ok plan =>
      match _execute_query_plan_processors plan req2 with
      | (plan2, some e) =>
          ({ self with request := req2, __query_plan := some plan2 },
            .error e)
      | (plan2, Option.none) =>
          ({ self with request := req2, __query_plan := some plan2 },
            .ok (plan2.execution_strategy plan2.query req2.settings
                  self.runner))

/-- Observable pipeline stages, used to instrument processor and strategy
invocations. -/
inductive PEvent where
  | entity : Nat → PEvent
  | buildPlan : PEvent
  | plan : Nat → PEvent
  | strategy : PEvent
deriving Repr, DecidableEq

/-- An entity processor that records its invocation in the request's query
trace. -/
def traceEntityProcessor (i : Nat) :
    Request (List PEvent) Unit →
      Except (List PEvent) (Request (List PEvent) Unit) :=
  fun r => .ok { r with query := r.query ++ [.entity i] }

/-- An entity processor that fails, reporting the trace at failure time. -/
def failingEntityProcessor :
    Request (List PEvent) Unit →
      Except (List PEvent) (Request (List PEvent) Unit) :=
  fun r => .error r.query

/-- A plan builder recording its invocation and installing one recording
plan processor (P3) and the recording execution strategy. -/
def tracePlanBuilder :
    Request (List PEvent) Unit →
      Except (List PEvent)
        (ClickhouseQueryPlan (List PEvent) Unit Unit (List PEvent)
          (List PEvent)) :=
  fun r => .ok
    { query := r.query ++ [.buildPlan]
      plan_processors := [fun q _ => .ok (q ++ [.plan 3])]
      execution_strategy := fun q _ _ => q ++ [.strategy] }

/-- The instrumented pipeline: entity processors P1 and P2, plan processor
P3 and the recording strategy. -/
def tracePipeline :
    SimplePipeline (List PEvent) Unit (List PEvent) Unit (List PEvent)
      (List PEvent) :=
  SimplePipeline.init { query := [], settings := () } ()
    tracePlanBuilder [traceEntityProcessor 1, traceEntityProcessor 2]

/-- The instrumented pipeline with a failing P1. -/
def tracePipelineFailP1 :
    SimplePipeline (List PEvent) Unit (List PEvent) Unit (List PEvent)
      (List PEvent) :=
  SimplePipeline.init { query := [], settings := () } ()
    tracePlanBuilder [failingEntityProcessor, traceEntityProcessor 2]

/-- A plan builder over `Nat` queries whose built plan has query `0` and a
single plan processor incrementing it; the strategy returns the query it
receives. -/
def bumpPlanBuilder :
    Request Nat Unit → Except Unit (ClickhouseQueryPlan Nat Unit Unit Nat Unit) :=
  fun _ => .ok
    { query := 0
      plan_processors := [fun q _ => .ok (q + 1)]
      execution_strategy := fun q _ _ => q }

/-- The pipeline instantiated with `bumpPlanBuilder`. -/
def bumpPipeline : SimplePipeline Nat Unit Nat Unit Nat Unit :=
  SimplePipeline.init { query := 0, settings := () } () bumpPlanBuilder []

/-- The pipeline state after a successful `bumpPipeline.execute`. -/
def bumpAfter : SimplePipeline Nat Unit Nat Unit Nat Unit :=
  { request := { query := 0, settings := () }, runner := ()
    query_plan_builder := bumpPlanBuilder
    entity_processors := []
    __query_plan := some
      { query := 1
        plan_processors := [fun q _ => .ok (q + 1)]
        execution_strategy := fun q _ _ => q } }

/-- A plan builder that always fails. -/
def failingPlanBuilder :
    Request Nat Unit → Except Unit (ClickhouseQueryPlan Nat Unit Unit Nat Unit) :=
  fun _ => .error ()

/-- The pipeline whose plan building aborts. -/
def failBuildPipeline : SimplePipeline Nat Unit Nat Unit Nat Unit :=
  SimplePipeline.init { query := 0, settings := () } () failingPlanBuilder []

theorem parse_conditions_one {α : Type} [BEq α] (B : Builders α) (d : Dataset)
    (c : PyVal) (aj : Option String) :
    parse_conditions B d c aj 1 = parse_conditions_at1 B d c aj := by
  unfold parse_conditions parse_conditions_at1
  by_cases h : pyFalsy c = true <;> simp [h]

theorem parse_conditions_ge_two {α : Type} [BEq α] (B : Builders α) (d : Dataset)
    (c : PyVal) (aj : Option String) (depth : Nat) (h2 : 2 ≤ depth) :
    parse_conditions B d c aj depth = parse_conditions_at2 B d c aj := by
  unfold parse_conditions parse_conditions_at2
  have h0 : (depth == 0) = false := by simp; omega
  have h1 : (depth == 1) = false := by simp; omega
  by_cases h : pyFalsy c = true <;> simp [h, h0, h1]

theorem pyFalsy_of_is_condition (c : PyVal) (h : is_condition c = true) :
    pyFalsy c = false := by
  unfold is_condition at h
  split at h
  · rfl
  · rfl
  · exact absurd h (by simp)

theorem pyInsert_map_int (a : Int) (l : List Int) :
    pyInsert (.int a) (l.map PyVal.int) = (insInt a l).map PyVal.int := by
  induction l with
  | nil => rfl
  | cons b bs ih =>
      simp only [List.map, pyInsert, insInt, pyLt]
      by_cases hab : a < b
      · simp [hab]
      · simp [hab, ih]

theorem pySorted_map_int (l : List Int) :
    pySorted (l.map PyVal.int) = (sortInts l).map PyVal.int := by
  induction l with
  | nil => rfl
  | cons x xs ih => simp only [List.map, pySorted, sortInts, ih, pyInsert_map_int]

theorem insInt_perm (a : Int) (l : List Int) : (insInt a l).Perm (a :: l) := by
  induction l with
  | nil => exact List.Perm.refl _
  | cons b bs ih =>
      unfold insInt
      by_cases h : a < b
      · simp [h]
      · rw [if_neg h]
        exact (ih.cons b).trans (List.Perm.swap a b bs)

theorem sorted_insInt (a : Int) (l : List Int) (h : l.Sorted (· ≤ ·)) :
    (insInt a l).Sorted (· ≤ ·) := by
  induction l with
  | nil => simp [insInt]
  | cons b bs ih =>
      rw [List.sorted_cons] at h
      unfold insInt
      by_cases hab : a < b
      · rw [if_pos hab, List.sorted_cons]
        refine ⟨fun x hx => ?_, List.sorted_cons.mpr h⟩
        rcases List.mem_cons.mp hx with rfl | hx2
        · exact le_of_lt hab
        · exact le_trans (le_of_lt hab) (h.1 x hx2)
      · rw [if_neg hab, List.sorted_cons]
        refine ⟨fun x hx => ?_, ih h.2⟩
        rcases List.mem_cons.mp ((insInt_perm a bs).mem_iff.mp hx) with rfl | hx2
        · exact le_of_not_lt hab
        · exact h.1 x hx2

theorem sorted_sortInts (l : List Int) : (sortInts l).Sorted (· ≤ ·) := by
  induction l with
  | nil => simp [sortInts]
  | cons x xs ih => exact sorted_insInt x _ ih

theorem sortInts_perm (l : List Int) : (sortInts l).Perm l := by
  induction l with
  | nil => exact List.Perm.refl _
  | cons x xs ih => exact (insInt_perm x (sortInts xs)).trans (ih.cons x)

theorem sortInts_canonical {xs ys : List Int} (h : xs.Perm ys) :
    sortInts xs = sortInts ys :=
  List.eq_of_perm_of_sorted
    ((sortInts_perm xs).trans (h.trans (sortInts_perm ys).symm))
    (sorted_sortInts xs) (sorted_sortInts ys)

theorem compile_single_in_tuple (xs : List PyVal) :
    parse_conditions_to_expr (.list [rawLeaf "a" "IN" (.tuple xs)])
      emptyDataset Option.none
      = .ok (some (binary_condition Option.none "in" (colRef "a")
          (.FunctionCall Option.none "tuple"
            ((pySorted xs).map (fun l => .Literal Option.none l))))) := rfl

/-- C1: a top-level (depth 0) call compiles each sub-condition recursively,
dedups by structural equality keeping first-seen order, drops `none`s and
AND-combines; empty/absent input and an all-dropped result give `none`;
dedup happens at depth 0 only, so duplicate leaves inside one depth-1
OR-group are preserved. -/
theorem claim_C1_depth0_dedup :
    (∀ (d : Dataset) (aj : Option String),
      parse_conditions_to_expr PyVal.none d aj = .ok Option.none ∧
      parse_conditions_to_expr (.list []) d aj = .ok Option.none) ∧
    parse_conditions_to_expr
      (.list [rawLeaf "a" "=" (.int 1), rawLeaf "b" "=" (.int 2),
              rawLeaf "a" "=" (.int 1)]) emptyDataset Option.none
      = .ok (some (binary_condition Option.none BooleanFunctions.AND
          (eqLeaf "a" 1) (eqLeaf "b" 2))) ∧
    parse_conditions_to_expr (.list [.list []]) emptyDataset Option.none
      = .ok Option.none ∧
    parse_conditions_to_expr
      (.list [.list [rawLeaf "a" "=" (.int 1), rawLeaf "a" "=" (.int 1)]])
      emptyDataset Option.none
      = .ok (some (binary_condition Option.none BooleanFunctions.OR
          (eqLeaf "a" 1) (eqLeaf "a" 1))) ∧
    ∀ (l : List (Option Expression)) (x : Option Expression),
      odKeys (l ++ [x])
        = if (odKeys l).contains x then odKeys l else odKeys l ++ [x] := by
  refine ⟨fun d aj => ⟨rfl, rfl⟩, rfl, rfl, rfl, fun l x => ?_⟩
  simp [odKeys, List.foldl_append]

/-- C3 counterexample: with list (not tuple) IN-literals — ordered
collections just as much as tuples — the two permuted literals compile to
different expressions and the top-level dedup does not collapse them: the
result is an AND of both conditions. -/
theorem claim_C3_counterexample :
    parse_conditions_to_expr
      (.list [rawLeaf "a" "IN" (.list [.int 3, .int 1, .int 2])])
      emptyDataset Option.none
      = .ok (some (binary_condition Option.none "in" (colRef "a")
          (.FunctionCall Option.none "tuple" [litInt 3, litInt 1, litInt 2]))) ∧
    parse_conditions_to_expr
      (.list [rawLeaf "a" "IN" (.list [.int 1, .int 2, .int 3])])
      emptyDataset Option.none
      = .ok (some (binary_condition Option.none "in" (colRef "a")
          (.FunctionCall Option.none "tuple" [litInt 1, litInt 2, litInt 3]))) ∧
    (binary_condition Option.none "in" (colRef "a")
        (.FunctionCall Option.none "tuple" [litInt 3, litInt 1, litInt 2]))
      ≠ (binary_condition Option.none "in" (colRef "a")
        (.FunctionCall Option.none "tuple" [litInt 1, litInt 2, litInt 3])) ∧
    parse_conditions_to_expr
      (.list [rawLeaf "a" "IN" (.list [.int 3, .int 1, .int 2]),
              rawLeaf "a" "IN" (.list [.int 1, .int 2, .int 3])])
      emptyDataset Option.none
      = .ok (some (binary_condition Option.none BooleanFunctions.AND
          (binary_condition Option.none "in" (colRef "a")
            (.FunctionCall Option.none "tuple" [litInt 3, litInt 1, litInt 2]))
          (binary_condition Option.none "in" (colRef "a")
            (.FunctionCall Option.none "tuple" [litInt 1, litInt 2, litInt 3])))) :=
  ⟨rfl, rfl, by decide, rfl⟩

/-- C3 (amended): for IN / NOT IN leaves whose right-hand literal is a
*tuple*, the literal is sorted before dedup comparison, so two top-level IN
conditions whose tuple literals are permutations of each other compile to
structurally identical expressions and collapse to a single condition at
depth 0 (list literals are not sorted). -/
theorem claim_C3_tuple_sorted :
    (∀ xs ys : List Int, xs.Perm ys →
      parse_conditions_to_expr
        (.list [rawLeaf "a" "IN" (.tuple (xs.map PyVal.int))])
        emptyDataset Option.none
        = parse_conditions_to_expr
            (.list [rawLeaf "a" "IN" (.tuple (ys.map PyVal.int))])
            emptyDataset Option.none) ∧
    parse_conditions_to_expr
      (.list [rawLeaf "a" "IN" (.tuple [.int 3, .int 1, .int 2]),
              rawLeaf "a" "IN" (.tuple [.int 1, .int 2, .int 3])])
      emptyDataset Option.none
      = .ok (some (binary_condition Option.none "in" (colRef "a")
          (.FunctionCall Option.none "tuple" [litInt 1, litInt 2, litInt 3]))) := by
  constructor
  · intro xs ys hperm
    rw [compile_single_in_tuple, compile_single_in_tuple]
    have hs : pySorted (xs.map PyVal.int) = pySorted (ys.map PyVal.int) := by
      rw [pySorted_map_int, pySorted_map_int, sortInts_canonical hperm]
    rw [hs]
  · rfl

theorem claim_C3_witness :
    ([3, 1, 2] : List Int).Perm [1, 2, 3] ∧
    parse_conditions_to_expr
      (.list [rawLeaf "a" "IN" (.tuple (([3, 1, 2] : List Int).map PyVal.int))])
      emptyDataset Option.none
      = parse_conditions_to_expr
          (.list [rawLeaf "a" "IN" (.tuple (([1, 2, 3] : List Int).map PyVal.int))])
          emptyDataset Option.none :=
  ⟨by decide, claim_C3_tuple_sorted.1 [3, 1, 2] [1, 2, 3] (by decide)⟩

/-- C2: a leaf whose left-hand side names an Array-typed column whose base
name differs from the active array-join, with a scalar (non-list/tuple)
right-hand literal, is compiled through the array-unpack builder, which
emits `arrayExists(λx. assumeNotNull(cmpFn(x, literal)), column)` for
positive operators and `arrayAll(...)` otherwise; every other leaf goes
through the simple-condition builder, including under an active array-join
on the column's base name. -/
theorem claim_C2_array_unpack :
    (∀ (d : Dataset) (aj : Option String) (c : PyVal) (lhs op : String)
        (lit : PyVal) (col : ColumnSpec),
      is_condition c = true →
      d.process_condition c = (.str lhs, op, lit) →
      d.columns.lookup lhs = some col →
      col.isArrayType = true →
      col.base_name ≠ aj →
      isPyListOrTuple (sortIN op lit) = false →
      parse_conditions expressionBuilders d c aj 1
        = (do
            let l ← operand_builder (.str lhs)
            let e ← unpack_array_condition_builder l op (sortIN op lit)
            Except.ok (some e))) ∧
    (∀ (d : Dataset) (aj : Option String) (c : PyVal),
      is_condition c = true →
      uses_array_unpack d aj (d.process_condition c).1
          (sortIN (d.process_condition c).2.1 (d.process_condition c).2.2)
        = false →
      parse_conditions expressionBuilders d c aj 1
        = (do
            let l ← operand_builder (d.process_condition c).1
            let e ← simple_condition_builder l (d.process_condition c).2.1
                (sortIN (d.process_condition c).2.1 (d.process_condition c).2.2)
            Except.ok (some e))) ∧
    (∀ (l : Expression) (op : String) (lit : PyVal) (fn : String)
        (litE : Expression),
      operatorFunction op = .ok fn → preprocess_literal op lit = .ok litE →
      unpack_array_condition_builder l op lit
        = .ok (.FunctionCall Option.none
            (if POSITIVE_OPERATORS.contains op then "arrayExists" else "arrayAll")
            [.Lambda Option.none ["x"]
              (.FunctionCall Option.none "assumeNotNull"
                [.FunctionCall Option.none fn [.Argument Option.none "x", litE]]),
             l])) ∧
    parse_conditions_to_expr (.list [rawLeaf "tags" "=" (.str "x")])
      tagsDataset Option.none
      = .ok (some (.FunctionCall Option.none "arrayExists"
          [.Lambda Option.none ["x"]
            (.FunctionCall Option.none "assumeNotNull"
              [.FunctionCall Option.none "equals"
                [.Argument Option.none "x", .Literal Option.none (.str "x")]]),
           colRef "tags"])) ∧
    parse_conditions_to_expr (.list [rawLeaf "tags" "!=" (.str "x")])
      tagsDataset Option.none
      = .ok (some (.FunctionCall Option.none "arrayAll"
          [.Lambda Option.none ["x"]
            (.FunctionCall Option.none "assumeNotNull"
              [.FunctionCall Option.none "notEquals"
                [.Argument Option.none "x", .Literal Option.none (.str "x")]]),
           colRef "tags"])) ∧
    parse_conditions_to_expr (.list [rawLeaf "tags" "=" (.str "x")])
      tagsDataset (some "tags")
      = .ok (some (binary_condition Option.none "equals" (colRef "tags")
          (.Literal Option.none (.str "x")))) := by
  refine ⟨?_, ?_, ?_, rfl, rfl, rfl⟩
  · intro d aj c lhs op lit col hc hp hl ha hb hs
    rw [parse_conditions_one]
    have hf := pyFalsy_of_is_condition c hc
    unfold parse_conditions_at1
    simp only [hf, hc, Bool.false_eq_true, if_false, if_true]
    have hu : uses_array_unpack d aj (.str lhs) (sortIN op lit) = true := by
      unfold uses_array_unpack
      simp [hl, ha, hs, bne_iff_ne, hb]
    simp only [parse_conditions_leaf, hp, hu, if_true]
    rfl
  · intro d aj c hc hu
    rw [parse_conditions_one]
    have hf := pyFalsy_of_is_condition c hc
    unfold parse_conditions_at1
    simp only [hf, hc, Bool.false_eq_true, if_false, if_true]
    simp only [parse_conditions_leaf, hu, Bool.false_eq_true, if_false]
    rfl
  · intro l op lit fn litE hfn hlit
    simp only [unpack_array_condition_builder, hfn, hlit]
    rfl

theorem claim_C2_witness :
    is_condition (rawLeaf "tags" "=" (.str "x")) = true ∧
    tagsDataset.process_condition (rawLeaf "tags" "=" (.str "x"))
      = (.str "tags", "=", .str "x") ∧
    tagsDataset.columns.lookup "tags"
      = some { isArrayType := true, base_name := some "tags" } ∧
    (some "tags" : Option String) ≠ Option.none ∧
    isPyListOrTuple (sortIN "=" (.str "x")) = false ∧
    parse_conditions expressionBuilders tagsDataset
      (rawLeaf "tags" "=" (.str "x")) Option.none 1
      = (do
          let l ← operand_builder (.str "tags")
          let e ← unpack_array_condition_builder l "=" (sortIN "=" (.str "x"))
          Except.ok (some e)) :=
  ⟨rfl, rfl, rfl, by decide, rfl,
    claim_C2_array_unpack.1 tagsDataset Option.none
      (rawLeaf "tags" "=" (.str "x")) "tags" "=" (.str "x")
      { isArrayType := true, base_name := some "tags" }
      rfl rfl rfl rfl (by decide) rfl⟩

/-- C4 counterexample: the structurally valid 3-tuple `("a", "=", 1)` is a
leaf at depth 1, but at depth 0 it is *not* treated as a leaf — the depth-0
branch wins and iterates over its three elements, here ending in an
`InvalidConditionException` on the element `"a"`. -/
theorem claim_C4_counterexample :
    is_condition (rawLeaf "a" "=" (.int 1)) = true ∧
    parse_conditions_to_expr (rawLeaf "a" "=" (.int 1)) emptyDataset Option.none
      = .error (.invalidConditionException (.str "a")) ∧
    parse_conditions expressionBuilders emptyDataset (rawLeaf "a" "=" (.int 1))
      Option.none 1
      = .ok (some (eqLeaf "a" 1)) :=
  ⟨rfl, rfl, rfl⟩

/-- C4 (amended): a structurally valid 3-tuple is treated as a leaf simple
condition at any depth ≥ 1, short-circuiting further descent; at depth 0
the input is always treated as the top-level sequence of sub-conditions. -/
theorem claim_C4_leaf_at_depth_ge1 {α : Type} [BEq α] (B : Builders α)
    (d : Dataset) (c : PyVal) (aj : Option String) (depth : Nat)
    (h1 : 1 ≤ depth) (hc : is_condition c = true) :
    parse_conditions B d c aj depth = parse_conditions_leaf B d c aj := by
  have hf := pyFalsy_of_is_condition c hc
  rcases Nat.lt_or_ge depth 2 with h2 | h2
  · have hd : depth = 1 := by omega
    subst hd
    rw [parse_conditions_one]
    unfold parse_conditions_at1
    simp [hf, hc]
  · rw [parse_conditions_ge_two _ _ _ _ _ h2]
    unfold parse_conditions_at2
    simp [hf, hc]

theorem claim_C4_witness :
    1 ≤ 3 ∧ is_condition (rawLeaf "x" ">" (.int 0)) = true ∧
    parse_conditions expressionBuilders emptyDataset (rawLeaf "x" ">" (.int 0))
      Option.none 3
      = parse_conditions_leaf expressionBuilders emptyDataset
          (rawLeaf "x" ">" (.int 0)) Option.none :=
  ⟨by decide, rfl,
    claim_C4_leaf_at_depth_ge1 expressionBuilders emptyDataset
      (rawLeaf "x" ">" (.int 0)) Option.none 3 (by decide) rfl⟩

/-- C6: at any depth ≥ 2, a non-empty input that is not a well-formed leaf
3-tuple fails immediately with `InvalidConditionException` carrying the
offending raw value; in particular a 3-level-deep nested sequence with no
leaf by depth 1 raises it. -/
theorem claim_C6_depth_violation :
    (∀ {α : Type} [BEq α] (B : Builders α) (d : Dataset) (c : PyVal)
        (aj : Option String) (depth : Nat),
      2 ≤ depth → pyFalsy c = false → is_condition c = false →
      parse_conditions B d c aj depth = .error (.invalidConditionException c)) ∧
    parse_conditions_to_expr
      (.list [.list [.list [rawLeaf "a" "=" (.int 1)]]]) emptyDataset Option.none
      = .error (.invalidConditionException (.list [rawLeaf "a" "=" (.int 1)])) := by
  constructor
  · intro α _ B d c aj depth h2 hf hc
    rw [parse_conditions_ge_two _ _ _ _ _ h2]
    unfold parse_conditions_at2
    simp [hf, hc]
  · rfl

theorem claim_C6_witness :
    2 ≤ 2 ∧ pyFalsy (.int 5) = false ∧ is_condition (.int 5) = false ∧
    parse_conditions expressionBuilders emptyDataset (.int 5) Option.none 2
      = .error (.invalidConditionException (.int 5)) :=
  ⟨by decide, rfl, rfl,
    claim_C6_depth_violation.1 expressionBuilders emptyDataset (.int 5)
      Option.none 2 (by decide) rfl rfl⟩

/-- C7: the AND/OR builders combine a non-empty list right-associatively
into nested binary boolean FunctionCalls, a singleton is returned unchanged
with no wrapping, and an empty list yields `none`; consequently a single
compiled leaf carries no redundant AND. -/
theorem claim_C7_and_or_builders :
    and_builder [] = Option.none ∧ or_builder [] = Option.none ∧
    (∀ e : Expression, and_builder [e] = some e ∧ or_builder [e] = some e) ∧
    (∀ (e1 e2 : Expression) (rest : List Expression) (f : String),
      multi_expression_builder (e1 :: e2 :: rest) f
        = (multi_expression_builder (e2 :: rest) f).map
            (fun r => binary_condition Option.none f e1 r)) ∧
    (∀ e1 e2 e3 : Expression,
      and_builder [e1, e2, e3]
        = some (binary_condition Option.none BooleanFunctions.AND e1
            (binary_condition Option.none BooleanFunctions.AND e2 e3)) ∧
      or_builder [e1, e2, e3]
        = some (binary_condition Option.none BooleanFunctions.OR e1
            (binary_condition Option.none BooleanFunctions.OR e2 e3))) ∧
    parse_conditions_to_expr (.list [rawLeaf "a" "=" (.int 1)])
      emptyDataset Option.none
      = .ok (some (eqLeaf "a" 1)) :=
  ⟨rfl, rfl, fun e => ⟨rfl, rfl⟩, fun e1 e2 rest f => rfl,
    fun e1 e2 e3 => ⟨rfl, rfl⟩, rfl⟩

/-- C8: `preprocess_literal` packages a list/tuple literal as a
`tuple(...)` FunctionCall over per-element Literals exactly when the
operator is IN / NOT IN; a list/tuple literal with another operator, or a
scalar literal with IN / NOT IN, fails fast with an assertion error, which
`simple_condition_builder` propagates. -/
theorem claim_C8_literal_packaging :
    (∀ (op : String) (lit : PyVal), isPyListOrTuple lit = true →
      ¬(op = "IN" ∨ op = "NOT IN") →
      preprocess_literal op lit = .error .assertionError) ∧
    (∀ (op : String) (lit : PyVal), isPyListOrTuple lit = false →
      (op = "IN" ∨ op = "NOT IN") →
      preprocess_literal op lit = .error .assertionError) ∧
    (∀ (ls : List PyVal) (op : String), (op = "IN" ∨ op = "NOT IN") →
      preprocess_literal op (.tuple ls)
        = .ok (.FunctionCall Option.none "tuple"
            (ls.map (fun l => .Literal Option.none l))) ∧
      preprocess_literal op (.list ls)
        = .ok (.FunctionCall Option.none "tuple"
            (ls.map (fun l => .Literal Option.none l)))) ∧
    (∀ (lhs : Expression) (op : String) (lit : PyVal) (fn : String),
      operatorFunction op = .ok fn →
      preprocess_literal op lit = .error .assertionError →
      simple_condition_builder lhs op lit = .error .assertionError) ∧
    simple_condition_builder (colRef "a") "=" (.list [.int 1])
      = .error .assertionError ∧
    simple_condition_builder (colRef "a") "IN" (.int 1)
      = .error .assertionError ∧
    simple_condition_builder (colRef "a") "IN" (.tuple [.int 1, .int 2])
      = .ok (binary_condition Option.none "in" (colRef "a")
          (.FunctionCall Option.none "tuple"
            [.Literal Option.none (.int 1), .Literal Option.none (.int 2)])) := by
  refine ⟨?_, ?_, ?_, ?_, rfl, rfl, rfl⟩
  · intro op lit hl hop
    cases lit <;> simp_all [preprocess_literal, isPyListOrTuple]
  · intro op lit hl hop
    cases lit <;> simp_all [preprocess_literal, isPyListOrTuple]
  · intro ls op hop
    constructor <;> simp_all [preprocess_literal]
  · intro lhs op lit fn hfn hlit
    simp only [simple_condition_builder, hfn, hlit]
    rfl

theorem claim_C8_witness :
    isPyListOrTuple (.list []) = true ∧ ¬("=" = "IN" ∨ "=" = "NOT IN") ∧
    preprocess_literal "=" (.list []) = .error .assertionError :=
  ⟨rfl, by decide, claim_C8_literal_packaging.1 "=" (.list []) rfl (by decide)⟩

/-- C5: with entity processors [P1, P2] and plan processor [P3], `execute`
invokes exactly P1, P2, build_plan, P3, execution_strategy in that order,
with build_plan invoked exactly once; if P1 raises, neither P2 nor
build_plan nor P3 nor the strategy runs. -/
theorem claim_C5_pipeline_order :
    (tracePipeline.execute).2
      = .ok [.entity 1, .entity 2, .buildPlan, .plan 3, .strategy] ∧
    ([PEvent.entity 1, .entity 2, .buildPlan, .plan 3, .strategy].count
        PEvent.buildPlan = 1) ∧
    (tracePipelineFailP1.execute).2 = .error [] ∧
    (tracePipelineFailP1.execute).1.request.query = ([] : List PEvent) ∧
    (tracePipelineFailP1.execute).1.__query_plan = Option.none ∧
    (∀ {Q S QP Rn Res E : Type} (self : SimplePipeline Q S QP Rn Res E)
        (P1 : Request Q S → Except E (Request Q S))
        (rest : List (Request Q S → Except E (Request Q S))) (e : E),
      self.entity_processors = P1 :: rest →
      P1 self.request = .error e →
      self.execute = (self, .error e)) := by
  refine ⟨rfl, rfl, rfl, rfl, rfl, ?_⟩
  intro Q S QP Rn Res E self P1 rest e h1 h2
  have key : _execute_entity_processors self.entity_processors self.request
      = (self.request, some e) := by
    unfold _execute_entity_processors
    rw [h1]
    unfold runProcessors
    rw [h2]
  unfold SimplePipeline.execute
  rw [key]

theorem claim_C5_witness :
    tracePipelineFailP1.entity_processors
      = failingEntityProcessor :: [traceEntityProcessor 2] ∧
    failingEntityProcessor tracePipelineFailP1.request = .error [] ∧
    tracePipelineFailP1.execute = (tracePipelineFailP1, .error []) :=
  ⟨rfl, rfl,
    claim_C5_pipeline_order.2.2.2.2.2 tracePipelineFailP1
      failingEntityProcessor [traceEntityProcessor 2] [] rfl rfl⟩

/-- C9: after a successful `execute`, the exposed `query_plan` is exactly
the plan whose query was handed to the execution strategy — the
post-plan-processing plan; concretely, `bumpPipeline` builds a plan with
query 0, its plan processor bumps it to 1, and the exposed plan carries
query 1 (not 0) while the strategy also received 1. -/
theorem claim_C9_plan_exposure :
    (∀ {Q S QP Rn Res E : Type}
        (self self2 : SimplePipeline Q S QP Rn Res E) (res : Res),
      self.execute = (self2, .ok res) →
      ∃ p, self2.query_plan = .ok p ∧
        res = p.execution_strategy p.query self2.request.settings
                self2.runner) ∧
    ((bumpPipeline.query_plan_builder bumpPipeline.request).map
        (fun p => p.query)) = .ok 0 ∧
    ((bumpPipeline.execute).1.query_plan).map (fun p => p.query) = .ok 1 ∧
    (bumpPipeline.execute).2 = .ok 1 := by
  refine ⟨?_, rfl, rfl, rfl⟩
  intro Q S QP Rn Res E self self2 res h
  unfold SimplePipeline.execute at h
  split at h
  · simp at h
  · split at h
    · simp at h
    · split at h
      · simp at h
      · injection h with h1 h2
        subst h1
        injection h2 with h2
        exact ⟨_, rfl, h2.symm⟩

theorem claim_C9_witness :
    bumpPipeline.execute = (bumpAfter, .ok 1) ∧
    ∃ p, bumpAfter.query_plan = .ok p ∧
      (1 : Nat) = p.execution_strategy p.query bumpAfter.request.settings
                    bumpAfter.runner :=
  ⟨rfl, claim_C9_plan_exposure.1 bumpPipeline bumpAfter 1 rfl⟩

/-- C10: `__query_plan` is assigned only inside `execute` after the entity
processors and `build_plan` have succeeded; reading the `query_plan`
property on a freshly constructed pipeline, or after an `execute` aborted
in an entity processor or in plan building, raises `AttributeError`
instead of returning any plan. -/
theorem claim_C10_query_plan_unset :
    (∀ (Q S QP Rn Res E : Type) (r : Request Q S) (rn : Rn)
        (b : Request Q S → Except E (ClickhouseQueryPlan QP S Rn Res E))
        (eps : List (Request Q S → Except E (Request Q S))),
      (SimplePipeline.init r rn b eps).query_plan = .error "AttributeError") ∧
    (∀ {Q S QP Rn Res E : Type} (self : SimplePipeline Q S QP Rn Res E)
        (r2 : Request Q S) (e : E),
      _execute_entity_processors self.entity_processors self.request
        = (r2, some e) →
      (self.execute).1.query_plan = self.query_plan) ∧
    (∀ {Q S QP Rn Res E : Type} (self : SimplePipeline Q S QP Rn Res E)
        (r2 : Request Q S) (e : E),
      _execute_entity_processors self.entity_processors self.request
        = (r2, Option.none) →
      self.query_plan_builder r2 = .error e →
      (self.execute).1.query_plan = self.query_plan) ∧
    (tracePipelineFailP1.execute).1.query_plan = .error "AttributeError" ∧
    (failBuildPipeline.execute).1.query_plan = .error "AttributeError" := by
  refine ⟨fun Q S QP Rn Res E r rn b eps => rfl, ?_, ?_, rfl, rfl⟩
  · intro Q S QP Rn Res E self r2 e h
    unfold SimplePipeline.execute
    rw [h]
    rfl
  · intro Q S QP Rn Res E self r2 e h1 h2
    unfold SimplePipeline.execute
    split
    · rename_i req2 e2 heq
      rw [h1] at heq
      simp at heq
    · rename_i req2 heq
      rw [h1] at heq
      injection heq with hq he
      subst hq
      rw [h2]
      rfl

theorem claim_C10_witness :
    _execute_entity_processors tracePipelineFailP1.entity_processors
        tracePipelineFailP1.request
      = ({ query := [], settings := () }, some []) ∧
    (tracePipelineFailP1.execute).1.query_plan
      = tracePipelineFailP1.query_plan :=
  ⟨rfl,
    claim_C10_query_plan_unset.2.1 tracePipelineFailP1
      { query := [], settings := () } [] rfl⟩

end Snuba
